import Mathlib

/-
Verification of the news-automation pipeline (src/src/news_automation/crew.py
and src/src/news_automation/main.py).

The three tool adapters (NewsFetcherTool, SlackBotTool, GoogleSheetsLogger)
and the entry point (run) are embedded shallowly:

  * process-wide configuration (os.environ) becomes an explicit `Env` record
    of optional strings (`os.environ.get` is field access; `os.environ[k]`
    raises `keyError k` when the field is `none`);
  * Python exceptions become an explicit `PyError` sum, and every fallible
    operation returns `Except PyError`;
  * each external HTTP library call is modelled by recording the request the
    code would send (the second component of each tool's result is the list
    of outbound requests issued during the call, in order) and by taking the
    remote behaviour (HTTP status, JSON response, append response) as an
    explicit input, since the network services are opaque collaborators;
  * `requests.Response.raise_for_status` raises exactly for statuses in
    400..599, as the requests library defines it;
  * `base64.b64decode` and `json.loads` are external library functions; they
    are passed in as oracles whose `none` result models the library raising
    (binascii.Error and json.JSONDecodeError respectively), which the tool
    code does not catch.
-/

namespace NewsAutomation

/-- Python exceptions that the embedded code can raise.  `keyError` models
`KeyError` from a dict or `os.environ` subscript; `configError` the explicit
`raise Exception(...)` for missing configuration; `httpError` the
`requests.HTTPError` from `raise_for_status`; `b64DecodeError` the
`binascii.Error` from `base64.b64decode`; `jsonDecodeError` the
`json.JSONDecodeError` from `json.loads`; `attrError` Python's
`AttributeError` (e.g. calling `.get` on `None`). -/
inductive PyError where
  | keyError (key : String)
  | configError (msg : String)
  | httpError (status : Nat)
  | b64DecodeError
  | jsonDecodeError
  | attrError (msg : String)
  deriving DecidableEq, Repr

/-- The process-wide configuration read from `os.environ` by the tools. -/
structure Env where
  SERPER_API_KEY : Option String
  SLACK_WEBHOOK_URL : Option String
  GCP_CREDENTIALS_B64 : Option String
  SPREADSHEET_ID : Option String
  deriving DecidableEq, Repr

/-- A news item as a Python dict with the four keys the tools subscript;
a `none` field models an absent key, so subscripting it raises `KeyError`. -/
structure ItemDict where
  date : Option String
  headline : Option String
  summary : Option String
  url : Option String
  deriving DecidableEq, Repr

/-- Python dict subscript `item[key]`: returns the value or raises
`KeyError key`. -/
def getKey (v : Option String) (key : String) : Except PyError String :=
  match v with
  | some s => Except.ok s
  | none => Except.error (PyError.keyError key)

/- ---------------------------------------------------------------------
   NewsFetcherTool (crew.py lines 20-38)
   --------------------------------------------------------------------- -/

/-- The single outbound POST that NewsFetcherTool issues: fixed URL, the
X-API-KEY header taken from `os.environ.get("SERPER_API_KEY")` (optional:
`none` means the key was absent from the environment), the Content-Type
header, and the JSON body `q = topic`. -/
structure SearchRequest where
  url : String
  xApiKey : Option String
  contentType : String
  q : String
  deriving DecidableEq, Repr

/-- Embedding of `NewsFetcherTool`.  The code reads the API key with
`os.environ.get` (never raising), builds the request, and issues it
unconditionally; `transport` models `requests.request` plus
`response.json()` — it may fail (a transport or JSON error, which the code
does not catch) or return the parsed response, which the tool returns
untouched.  The second component is the list of requests issued. -/
def NewsFetcherTool (env : Env) (transport : SearchRequest → Except PyError String)
    (topic : String) : Except PyError String × List SearchRequest :=
  let req : SearchRequest :=
    ⟨"https://google.serper.dev/search", env.SERPER_API_KEY, "application/json", topic⟩
  (transport req, [req])

/- ---------------------------------------------------------------------
   SlackBotTool (crew.py lines 40-72)
   --------------------------------------------------------------------- -/

/-- One Slack Block-Kit block: either a section with a text object of the
given type ("mrkdwn" in this code) or a divider. -/
inductive Block where
  | sectionBlock (textType : String) (text : String)
  | divider
  deriving DecidableEq, Repr

/-- The f-string `*<{url}|{headline}>*\n{summary}` with the three values
substituted. -/
def slackText (u h s : String) : String :=
  "*<" ++ u ++ "|" ++ h ++ ">*" ++ "\n" ++ s

/-- The loop in SlackBotTool that builds the block list: per item, one
mrkdwn section followed by one divider, in input order.  Dict subscripts
happen in f-string evaluation order (url, headline, summary); the first
missing key aborts the whole construction with `KeyError`, exactly as the
Python loop raises before `requests.post` is reached. -/
def mkBlocks : List ItemDict → Except PyError (List Block)
  | [] => Except.ok []
  | item :: rest =>
    match getKey item.url "url" with
    | Except.error e => Except.error e
    | Except.ok u =>
      match getKey item.headline "headline" with
      | Except.error e => Except.error e
      | Except.ok h =>
        match getKey item.summary "summary" with
        | Except.error e => Except.error e
        | Except.ok s =>
          match mkBlocks rest with
          | Except.error e => Except.error e
          | Except.ok tail =>
            Except.ok (Block.sectionBlock "mrkdwn" (slackText u h s)
              :: Block.divider :: tail)

/-- The JSON body POSTed to the Slack webhook. -/
structure SlackPayload where
  channel : String
  blocks : List Block
  deriving DecidableEq, Repr

/-- The dict returned by SlackBotTool on success. -/
structure SlackResult where
  status : String
  count : Nat
  deriving DecidableEq, Repr

/-- Embedding of `SlackBotTool`.  `respStatus` is the HTTP status of the
webhook's response to the single POST (an input, since the webhook is an
external service).  Mirrors the code line by line: the `if not webhook_url`
guard (true for an absent key and for the empty string, Python falsiness)
raises before anything else; the block list is built next (a missing item
key raises here, before any request); then exactly one POST is issued with
the full payload, and `raise_for_status` raises for statuses 400..599;
otherwise the count of input items is returned. -/
def SlackBotTool (env : Env) (respStatus : Nat) (summaries : List ItemDict)
    (channel : String) : Except PyError SlackResult × List SlackPayload :=
  match env.SLACK_WEBHOOK_URL with
  | none =>
    (Except.error (PyError.configError "Missing SLACK_WEBHOOK_URL in environment variables"), [])
  | some w =>
    if w = "" then
      (Except.error (PyError.configError "Missing SLACK_WEBHOOK_URL in environment variables"), [])
    else
      match mkBlocks summaries with
      | Except.error e => (Except.error e, [])
      | Except.ok blocks =>
        let payload : SlackPayload := ⟨channel, blocks⟩
        if 400 ≤ respStatus ∧ respStatus < 600 then
          (Except.error (PyError.httpError respStatus), [payload])
        else
          (Except.ok ⟨"sent", summaries.length⟩, [payload])

/- ---------------------------------------------------------------------
   GoogleSheetsLogger (crew.py lines 74-105)
   --------------------------------------------------------------------- -/

/-- The OAuth scopes requested for the service account. -/
def SCOPES : List String := ["https://www.googleapis.com/auth/spreadsheets"]

/-- The single append call the logger issues: spreadsheet id as read with
`os.environ.get("SPREADSHEET_ID")` (optional — the code never checks it),
the fixed range, `valueInputOption="RAW"`, and the row values. -/
structure AppendRequest where
  spreadsheetId : Option String
  range : String
  valueInputOption : String
  values : List (List String)
  deriving DecidableEq, Repr

/-- The response of the remote append call, as the code reads it:
`result.get("updates")` (outer Option: is the "updates" key present) then
`.get("updatedRows")` (inner Option: is the "updatedRows" key present). -/
structure AppendResponse where
  updates : Option (Option Nat)
  deriving DecidableEq, Repr

/-- The dict returned by GoogleSheetsLogger on success; `rows_added` is
whatever `result.get("updates").get("updatedRows")` yields (possibly
Python `None`, hence Option). -/
structure SheetsResult where
  status : String
  rows_added : Option Nat
  deriving DecidableEq, Repr

/-- The loop building `rows`: each item maps to the 4-column row
`[date, headline, summary, url]`, subscripted in exactly that order; a
missing key raises `KeyError` before the append call is reached. -/
def mkRows : List ItemDict → Except PyError (List (List String))
  | [] => Except.ok []
  | item :: rest =>
    match getKey item.date "date" with
    | Except.error e => Except.error e
    | Except.ok d =>
      match getKey item.headline "headline" with
      | Except.error e => Except.error e
      | Except.ok h =>
        match getKey item.summary "summary" with
        | Except.error e => Except.error e
        | Except.ok s =>
          match getKey item.url "url" with
          | Except.error e => Except.error e
          | Except.ok u =>
            match mkRows rest with
            | Except.error e => Except.error e
            | Except.ok tail => Except.ok ([d, h, s, u] :: tail)

/-- Embedding of `GoogleSheetsLogger`.  In source order:
`os.environ["GCP_CREDENTIALS_B64"]` raises `KeyError` when absent;
`base64.b64decode` (oracle `b64decode`, `none` = binascii.Error) and
`json.loads` (oracle `jsonLoads`, `none` = json.JSONDecodeError) may raise;
credentials and service construction carry no observable state here;
`SPREADSHEET_ID` is read with `.get` (no check, may be `none`); the rows
loop may raise `KeyError`; then exactly one append request is issued and
the code reads `result.get("updates").get("updatedRows")` from the remote
response `resp` (an `updates` key absent makes the second `.get` an
`AttributeError` on `None`). -/
def GoogleSheetsLogger (env : Env) (b64decode : String → Option String)
    (jsonLoads : String → Option String) (resp : AppendResponse)
    (news_items : List ItemDict) : Except PyError SheetsResult × List AppendRequest :=
  match env.GCP_CREDENTIALS_B64 with
  | none => (Except.error (PyError.keyError "GCP_CREDENTIALS_B64"), [])
  | some secret =>
    match b64decode secret with
    | none => (Except.error PyError.b64DecodeError, [])
    | some decoded =>
      match jsonLoads decoded with
      | none => (Except.error PyError.jsonDecodeError, [])
      | some _info =>
        let spreadsheetId := env.SPREADSHEET_ID
        match mkRows news_items with
        | Except.error e => (Except.error e, [])
        | Except.ok rows =>
          let req : AppendRequest := ⟨spreadsheetId, "Sheet1!A:D", "RAW", rows⟩
          match resp.updates with
          | none =>
            (Except.error (PyError.attrError "NoneType object has no attribute get"), [req])
          | some updatedRows => (Except.ok ⟨"logged", updatedRows⟩, [req])

/- ---------------------------------------------------------------------
   run (main.py lines 11-25)
   --------------------------------------------------------------------- -/

/-- The inputs dict built by `run`. -/
structure Inputs where
  topic : String
  current_year : String
  deriving DecidableEq, Repr

/-- Embedding of `main.run`.  `kickoff` models
`NewsAutomation().crew().kickoff` (the crewai orchestration is an external
collaborator): it either completes or fails with a message (Python
`str(e)`).  The second component is the list of kickoff invocations made,
in order.  The code invokes kickoff exactly once inside `try`; on any
exception it raises a new exception whose message wraps the original. -/
def run (currentYear : String) (kickoff : Inputs → Except String Unit) :
    Except String Unit × List Inputs :=
  let inputs : Inputs := ⟨"Artificial Intelligence and Tech", currentYear⟩
  match kickoff inputs with
  | Except.ok _ => (Except.ok (), [inputs])
  | Except.error e =>
    (Except.error ("An error occurred while running the crew: " ++ e), [inputs])

/- ---------------------------------------------------------------------
   Well-formedness of items and the row shape
   --------------------------------------------------------------------- -/

/-- An item carries the three keys the Slack tool subscripts. -/
def wf3 (it : ItemDict) : Bool :=
  it.url.isSome && it.headline.isSome && it.summary.isSome

/-- An item carries all four keys the sheets logger subscripts. -/
def wf4 (it : ItemDict) : Bool :=
  it.date.isSome && it.headline.isSome && it.summary.isSome && it.url.isSome

/-- The 4-column row a well-formed item maps to, in the fixed order
date, headline, summary, url. -/
def rowOf (it : ItemDict) : List String :=
  [it.date.getD "", it.headline.getD "", it.summary.getD "", it.url.getD ""]

/-- The two blocks one well-formed item contributes. -/
def blockPairOf (it : ItemDict) : List Block :=
  [Block.sectionBlock "mrkdwn"
      (slackText (it.url.getD "") (it.headline.getD "") (it.summary.getD "")),
   Block.divider]

/-- The full block list for a well-formed item sequence, in input order. -/
def blocksOf (items : List ItemDict) : List Block :=
  items.flatMap blockPairOf

/- ---------------------------------------------------------------------
   Helper lemmas
   --------------------------------------------------------------------- -/

theorem mkBlocks_eq (items : List ItemDict) (h : ∀ it ∈ items, wf3 it = true) :
    mkBlocks items = Except.ok (blocksOf items) := by
  induction items with
  | nil => rfl
  | cons hd tl ih =>
    have hhd := h hd (by simp)
    have htl : ∀ it ∈ tl, wf3 it = true := fun it hit => h it (by simp [hit])
    unfold wf3 at hhd
    simp only [Bool.and_eq_true] at hhd
    obtain ⟨⟨hu, hh⟩, hs⟩ := hhd
    rcases Option.isSome_iff_exists.mp hu with ⟨u, hu2⟩
    rcases Option.isSome_iff_exists.mp hh with ⟨hv, hh2⟩
    rcases Option.isSome_iff_exists.mp hs with ⟨sv, hs2⟩
    simp [mkBlocks, getKey, hu2, hh2, hs2, ih htl, blocksOf, blockPairOf]

theorem mkBlocks_missing (items : List ItemDict)
    (h : ∃ it ∈ items, it.url = none ∨ it.headline = none ∨ it.summary = none) :
    ∃ k, mkBlocks items = Except.error (PyError.keyError k) := by
  induction items with
  | nil => simp at h
  | cons hd tl ih =>
    rcases hu : hd.url with _ | u
    · exact ⟨"url", by simp [mkBlocks, getKey, hu]⟩
    · rcases hh2 : hd.headline with _ | hv
      · exact ⟨"headline", by simp [mkBlocks, getKey, hu, hh2]⟩
      · rcases hs : hd.summary with _ | sv
        · exact ⟨"summary", by simp [mkBlocks, getKey, hu, hh2, hs]⟩
        · rcases h with ⟨it, hit, hbad⟩
          rcases List.mem_cons.mp hit with heq | hmem
          · subst heq
            simp [hu, hh2, hs] at hbad
          · rcases ih ⟨it, hmem, hbad⟩ with ⟨k, hk⟩
            exact ⟨k, by simp [mkBlocks, getKey, hu, hh2, hs, hk]⟩

theorem mkRows_eq (items : List ItemDict) (h : ∀ it ∈ items, wf4 it = true) :
    mkRows items = Except.ok (items.map rowOf) := by
  induction items with
  | nil => rfl
  | cons hd tl ih =>
    have hhd := h hd (by simp)
    have htl : ∀ it ∈ tl, wf4 it = true := fun it hit => h it (by simp [hit])
    unfold wf4 at hhd
    simp only [Bool.and_eq_true] at hhd
    obtain ⟨⟨⟨hd2, hh⟩, hs⟩, hu⟩ := hhd
    rcases Option.isSome_iff_exists.mp hd2 with ⟨dv, hdd⟩
    rcases Option.isSome_iff_exists.mp hh with ⟨hv, hh2⟩
    rcases Option.isSome_iff_exists.mp hs with ⟨sv, hs2⟩
    rcases Option.isSome_iff_exists.mp hu with ⟨uv, hu2⟩
    simp [mkRows, getKey, hdd, hh2, hs2, hu2, ih htl, rowOf]

theorem map_rowOf_get? (items : List ItemDict) (i : Nat) :
    (items.map rowOf).get? i = (items.get? i).map rowOf := by
  induction items generalizing i with
  | nil => simp
  | cons hd tl ih =>
    cases i with
    | zero => rfl
    | succ j => simp [ih j]

/-- Every append request the logger issues carries the rows computed by
`mkRows`, the fixed range, RAW input option, and the spreadsheet id as read
from the environment. -/
theorem sheets_requests (env : Env) (b64decode : String → Option String)
    (jsonLoads : String → Option String) (resp : AppendResponse)
    (items : List ItemDict) (rows : List (List String))
    (h : mkRows items = Except.ok rows) :
    (GoogleSheetsLogger env b64decode jsonLoads resp items).2 = [] ∨
    (GoogleSheetsLogger env b64decode jsonLoads resp items).2 =
      [⟨env.SPREADSHEET_ID, "Sheet1!A:D", "RAW", rows⟩] := by
  unfold GoogleSheetsLogger
  cases hsec : env.GCP_CREDENTIALS_B64 with
  | none => left; rfl
  | some secret =>
    cases hb : b64decode secret with
    | none => left; simp [hb]
    | some decoded =>
      cases hj : jsonLoads decoded with
      | none => left; simp [hb, hj]
      | some info =>
        cases hup : resp.updates with
        | none => right; simp [hb, hj, h, hup]
        | some updatedRows => right; simp [hb, hj, h, hup]

/-- If the webhook is configured, SlackBotTool can only return `ok` with
count equal to the input length. -/
theorem SlackBotTool_ok (env : Env) (respStatus : Nat) (summaries : List ItemDict)
    (channel : String) (r : SlackResult)
    (h : (SlackBotTool env respStatus summaries channel).1 = Except.ok r) :
    r = ⟨"sent", summaries.length⟩ := by
  unfold SlackBotTool at h
  cases hw : env.SLACK_WEBHOOK_URL with
  | none => rw [hw] at h; simp at h
  | some w =>
    rw [hw] at h
    by_cases hne : w = ""
    · simp [hne] at h
    · simp only [hne, if_false] at h
      cases hb : mkBlocks summaries with
      | error e => rw [hb] at h; simp at h
      | ok blocks =>
        rw [hb] at h
        by_cases hst : 400 ≤ respStatus ∧ respStatus < 600
        · simp [hst] at h
        · simp [hst] at h
          exact h.symm

/- ---------------------------------------------------------------------
   Concrete fixtures
   --------------------------------------------------------------------- -/

/-- A fully populated environment. -/
def envFull : Env :=
  ⟨some "k", some "https://hooks.example/T0/B0", some "c2VjcmV0", some "sheet-1"⟩

/-- envFull without the search API key. -/
def envNoKey : Env :=
  ⟨none, some "https://hooks.example/T0/B0", some "c2VjcmV0", some "sheet-1"⟩

/-- envFull without the Slack webhook URL. -/
def envNoHook : Env := ⟨some "k", none, some "c2VjcmV0", some "sheet-1"⟩

/-- envFull without the service-account secret. -/
def envNoGcp : Env :=
  ⟨some "k", some "https://hooks.example/T0/B0", none, some "sheet-1"⟩

/-- envFull without the spreadsheet identifier. -/
def envNoSheet : Env :=
  ⟨some "k", some "https://hooks.example/T0/B0", some "c2VjcmV0", none⟩

/-- A news item carrying all four keys. -/
def itemFull : ItemDict := ⟨some "2024-01-01", some "X", some "Y", some "http://z"⟩

/-- A news item lacking the url key. -/
def itemNoUrl : ItemDict := ⟨some "2024-01-01", some "X", some "Y", none⟩

/-- A transport that succeeds with a fixed parsed response. -/
def transportOk : SearchRequest → Except PyError String := fun _ => Except.ok "resp"

/-- A base64 decoder oracle that always succeeds. -/
def b64ok : String → Option String := fun s => some s

/-- A JSON parser oracle that always succeeds. -/
def jsonOk : String → Option String := fun s => some s

/-- An append response whose updates report 0 updated rows. -/
def respZero : AppendResponse := ⟨some (some 0)⟩

/-- An append response whose updates report 1 updated row. -/
def respOne : AppendResponse := ⟨some (some 1)⟩

/- ---------------------------------------------------------------------
   Claims
   --------------------------------------------------------------------- -/

/-- C1: for every input sequence, whenever SlackBotTool returns a
confirmation at all, its count equals the length of the input sequence;
and for the empty sequence (with the webhook configured and a successful
response) the confirmation has count 0 and the single request carries an
empty block payload. -/
theorem claim_C1 (env : Env) (respStatus : Nat) (summaries : List ItemDict)
    (channel : String) :
    (∀ r, (SlackBotTool env respStatus summaries channel).1 = Except.ok r →
      r.count = summaries.length) ∧
    (∀ w, env.SLACK_WEBHOOK_URL = some w → w ≠ "" → respStatus < 400 →
      SlackBotTool env respStatus [] channel =
        (Except.ok ⟨"sent", 0⟩, [⟨channel, []⟩])) := by
  constructor
  · intro r hr
    rw [SlackBotTool_ok env respStatus summaries channel r hr]
  · intro w hw hne hst
    have hcond : ¬ (400 ≤ respStatus ∧ respStatus < 600) := by omega
    simp [SlackBotTool, hw, hne, mkBlocks, hcond]

/-- C1 witness: a concrete empty-sequence invocation reporting count 0. -/
theorem claim_C1_witness :
    SlackBotTool envFull 200 [] "#general" =
      (Except.ok ⟨"sent", 0⟩, [⟨"#general", []⟩]) :=
  (claim_C1 envFull 200 [] "#general").2 "https://hooks.example/T0/B0" rfl
    (by decide) (by decide)

/-- C2: for every input sequence of well-formed news items, every append
request the spreadsheet logger issues maps item i to row i (order
preserved, shown both as a map equation and index-wise), and each row is
exactly the four columns date, headline, summary, url in that order. -/
theorem claim_C2 (env : Env) (b64decode jsonLoads : String → Option String)
    (resp : AppendResponse) (items : List ItemDict)
    (hwf : ∀ it ∈ items, wf4 it = true) :
    ∀ req ∈ (GoogleSheetsLogger env b64decode jsonLoads resp items).2,
      req.values = items.map rowOf ∧
      (∀ i, req.values.get? i = (items.get? i).map rowOf) ∧
      ∀ it, rowOf it =
        [it.date.getD "", it.headline.getD "", it.summary.getD "", it.url.getD ""] := by
  intro req hreq
  rcases sheets_requests env b64decode jsonLoads resp items (items.map rowOf)
      (mkRows_eq items hwf) with h0 | h1
  · rw [h0] at hreq
    simp at hreq
  · rw [h1] at hreq
    simp at hreq
    subst hreq
    exact ⟨rfl, fun i => map_rowOf_get? items i, fun it => rfl⟩

/-- C2 witness: the concrete one-item request row. -/
theorem claim_C2_witness :
    (⟨some "sheet-1", "Sheet1!A:D", "RAW", [["2024-01-01", "X", "Y", "http://z"]]⟩ :
        AppendRequest).values = [itemFull].map rowOf :=
  (claim_C2 envFull b64ok jsonOk respOne [itemFull] (by decide)
    ⟨some "sheet-1", "Sheet1!A:D", "RAW", [["2024-01-01", "X", "Y", "http://z"]]⟩
    (by decide)).1

/-- C3 counterexample: with the search API key absent from configuration,
NewsFetcherTool raises no error at all — it returns the transport's
response — and it does issue its network request (the request list is the
one request, not empty), refuting ConfigurationError-before-network at
this input. -/
theorem claim_C3_counterexample :
    envNoKey.SERPER_API_KEY = none ∧
    (NewsFetcherTool envNoKey transportOk "AI").1 = Except.ok "resp" ∧
    (NewsFetcherTool envNoKey transportOk "AI").2 =
      [⟨"https://google.serper.dev/search", none, "application/json", "AI"⟩] ∧
    (NewsFetcherTool envNoKey transportOk "AI").2 ≠ [] := by
  exact ⟨rfl, rfl, rfl, by simp [NewsFetcherTool]⟩

/-- C3 (amended): if the search API key is absent from configuration,
NewsFetcherTool raises no ConfigurationError; it still issues exactly one
request to the search service — with an absent X-API-KEY header — and
returns whatever the transport yields. -/
theorem claim_C3 (env : Env) (transport : SearchRequest → Except PyError String)
    (topic : String) (h : env.SERPER_API_KEY = none) :
    NewsFetcherTool env transport topic =
      (transport ⟨"https://google.serper.dev/search", none, "application/json", topic⟩,
       [⟨"https://google.serper.dev/search", none, "application/json", topic⟩]) := by
  simp [NewsFetcherTool, h]

/-- C3 witness: the amended statement at a concrete environment and topic. -/
theorem claim_C3_witness :
    NewsFetcherTool envNoKey transportOk "AI" =
      (transportOk ⟨"https://google.serper.dev/search", none, "application/json", "AI"⟩,
       [⟨"https://google.serper.dev/search", none, "application/json", "AI"⟩]) :=
  claim_C3 envNoKey transportOk "AI" rfl

/-- C4: if the chat webhook URL is absent from configuration, SlackBotTool
raises the missing-configuration error and issues no HTTP request, for
every input sequence, channel and ambient response status. -/
theorem claim_C4 (env : Env) (respStatus : Nat) (summaries : List ItemDict)
    (channel : String) (h : env.SLACK_WEBHOOK_URL = none) :
    SlackBotTool env respStatus summaries channel =
      (Except.error
        (PyError.configError "Missing SLACK_WEBHOOK_URL in environment variables"),
       []) := by
  simp [SlackBotTool, h]

/-- C4 witness: a concrete invocation with the webhook missing. -/
theorem claim_C4_witness :
    SlackBotTool envNoHook 200 [itemFull] "#general" =
      (Except.error
        (PyError.configError "Missing SLACK_WEBHOOK_URL in environment variables"),
       []) :=
  claim_C4 envNoHook 200 [itemFull] "#general" rfl

/-- C5 counterexample: 300 is not a 2xx status, yet SlackBotTool returns the
success confirmation with count 1 instead of raising, because requests
raise_for_status only raises for statuses 400..599 — refuting the claim
that any non-2xx response makes the tool raise. -/
theorem claim_C5_counterexample :
    ¬ (200 ≤ (300 : Nat) ∧ (300 : Nat) ≤ 299) ∧
    (SlackBotTool envFull 300 [itemFull] "#general").1 =
      Except.ok ⟨"sent", 1⟩ := by
  constructor
  · omega
  · rfl

/-- C5 (amended): with the webhook configured and the block payload built,
SlackBotTool issues exactly one HTTP request carrying the full batch; it
raises without returning a count exactly when the response status is in
400..599 (the statuses requests raise_for_status raises for), and returns
the full count for any other status — including non-2xx statuses below
400. -/
theorem claim_C5 (env : Env) (w : String) (respStatus : Nat)
    (summaries : List ItemDict) (channel : String) (blocks : List Block)
    (hw : env.SLACK_WEBHOOK_URL = some w) (hne : w ≠ "")
    (hb : mkBlocks summaries = Except.ok blocks) :
    (SlackBotTool env respStatus summaries channel).2 = [⟨channel, blocks⟩] ∧
    (400 ≤ respStatus ∧ respStatus < 600 →
      (SlackBotTool env respStatus summaries channel).1 =
        Except.error (PyError.httpError respStatus)) ∧
    (¬ (400 ≤ respStatus ∧ respStatus < 600) →
      (SlackBotTool env respStatus summaries channel).1 =
        Except.ok ⟨"sent", summaries.length⟩) := by
  refine ⟨?_, ?_, ?_⟩
  · by_cases hst : 400 ≤ respStatus ∧ respStatus < 600 <;>
      simp [SlackBotTool, hw, hne, hb, hst]
  · intro hst
    simp [SlackBotTool, hw, hne, hb, hst]
  · intro hst
    simp [SlackBotTool, hw, hne, hb, hst]

/-- C5 witness: a concrete 500 response makes the tool raise the HTTP
error. -/
theorem claim_C5_witness :
    (SlackBotTool envFull 500 [itemFull] "#general").1 =
      Except.error (PyError.httpError 500) :=
  (claim_C5 envFull "https://hooks.example/T0/B0" 500 [itemFull] "#general"
    (blocksOf [itemFull]) rfl (by decide)
    (mkBlocks_eq [itemFull] (by decide))).2.1 (by omega)

/-- C6: with valid configuration, on the empty fetched collection the
notifier posts an empty block payload and reports count 0, and the logger
appends an empty batch and reports the zero updated-row count the remote
service reports; neither raises. -/
theorem claim_C6 (env : Env) (w secret decoded info : String) (respStatus : Nat)
    (channel : String) (b64decode jsonLoads : String → Option String)
    (resp : AppendResponse) (hw : env.SLACK_WEBHOOK_URL = some w) (hne : w ≠ "")
    (hst : respStatus < 400) (hsec : env.GCP_CREDENTIALS_B64 = some secret)
    (hb64 : b64decode secret = some decoded) (hjson : jsonLoads decoded = some info)
    (hresp : resp.updates = some (some 0)) :
    SlackBotTool env respStatus [] channel =
      (Except.ok ⟨"sent", 0⟩, [⟨channel, []⟩]) ∧
    GoogleSheetsLogger env b64decode jsonLoads resp [] =
      (Except.ok ⟨"logged", some 0⟩,
       [⟨env.SPREADSHEET_ID, "Sheet1!A:D", "RAW", []⟩]) := by
  have hcond : ¬ (400 ≤ respStatus ∧ respStatus < 600) := by omega
  constructor
  · simp [SlackBotTool, hw, hne, mkBlocks, hcond]
  · simp [GoogleSheetsLogger, hsec, hb64, hjson, hresp, mkRows]

/-- C6 witness: concrete empty-collection run of both tools. -/
theorem claim_C6_witness :
    SlackBotTool envFull 200 [] "#general" =
      (Except.ok ⟨"sent", 0⟩, [⟨"#general", []⟩]) ∧
    GoogleSheetsLogger envFull b64ok jsonOk respZero [] =
      (Except.ok ⟨"logged", some 0⟩,
       [⟨some "sheet-1", "Sheet1!A:D", "RAW", []⟩]) :=
  claim_C6 envFull "https://hooks.example/T0/B0" "c2VjcmV0" "c2VjcmV0" "c2VjcmV0"
    200 "#general" b64ok jsonOk respZero rfl (by decide) (by decide) rfl rfl rfl rfl

/-- C7: a missing service-account secret makes GoogleSheetsLogger raise the
environment KeyError before any network call (no request issued); a secret
that fails base64 decoding raises the decode error, and one that fails
JSON parsing raises the parse error, likewise before any request; and the
three failures are pairwise distinguishable. -/
theorem claim_C7 (env : Env) (b64decode jsonLoads : String → Option String)
    (resp : AppendResponse) (items : List ItemDict) :
    (env.GCP_CREDENTIALS_B64 = none →
      GoogleSheetsLogger env b64decode jsonLoads resp items =
        (Except.error (PyError.keyError "GCP_CREDENTIALS_B64"), [])) ∧
    (∀ secret, env.GCP_CREDENTIALS_B64 = some secret → b64decode secret = none →
      GoogleSheetsLogger env b64decode jsonLoads resp items =
        (Except.error PyError.b64DecodeError, [])) ∧
    (∀ secret decoded, env.GCP_CREDENTIALS_B64 = some secret →
      b64decode secret = some decoded → jsonLoads decoded = none →
      GoogleSheetsLogger env b64decode jsonLoads resp items =
        (Except.error PyError.jsonDecodeError, [])) ∧
    (PyError.keyError "GCP_CREDENTIALS_B64" ≠ PyError.b64DecodeError) ∧
    (PyError.keyError "GCP_CREDENTIALS_B64" ≠ PyError.jsonDecodeError) ∧
    ((PyError.b64DecodeError : PyError) ≠ PyError.jsonDecodeError) := by
  refine ⟨?_, ?_, ?_, by simp, by simp, by simp⟩
  · intro h
    simp [GoogleSheetsLogger, h]
  · intro secret h1 h2
    simp [GoogleSheetsLogger, h1, h2]
  · intro secret decoded h1 h2 h3
    simp [GoogleSheetsLogger, h1, h2, h3]

/-- C7 witness: a concrete invocation with the secret missing. -/
theorem claim_C7_witness :
    GoogleSheetsLogger envNoGcp b64ok jsonOk respZero [itemFull] =
      (Except.error (PyError.keyError "GCP_CREDENTIALS_B64"), []) :=
  (claim_C7 envNoGcp b64ok jsonOk respZero [itemFull]).1 rfl

/-- C8 counterexample: with the spreadsheet identifier absent but all other
configuration fine, GoogleSheetsLogger surfaces no configuration failure:
it succeeds and issues the network append request (with an absent
spreadsheet id), refuting surfaced-before-any-append-attempt at this
input. -/
theorem claim_C8_counterexample :
    envNoSheet.SPREADSHEET_ID = none ∧
    GoogleSheetsLogger envNoSheet b64ok jsonOk respZero [] =
      (Except.ok ⟨"logged", some 0⟩, [⟨none, "Sheet1!A:D", "RAW", []⟩]) ∧
    (GoogleSheetsLogger envNoSheet b64ok jsonOk respZero []).2 ≠ [] := by
  refine ⟨rfl, rfl, ?_⟩
  simp [GoogleSheetsLogger, envNoSheet, b64ok, jsonOk, respZero, mkRows]

/-- C8 (amended): absence of the spreadsheet identifier is not surfaced as
a configuration failure: once credentials load, the logger proceeds to
issue the network append request with an absent spreadsheetId, and its
result is never an explicit configuration exception nor an environment
KeyError. -/
theorem claim_C8 (env : Env) (b64decode jsonLoads : String → Option String)
    (resp : AppendResponse) (items : List ItemDict) (secret decoded info : String)
    (rows : List (List String)) (hsec : env.GCP_CREDENTIALS_B64 = some secret)
    (hb64 : b64decode secret = some decoded) (hjson : jsonLoads decoded = some info)
    (hid : env.SPREADSHEET_ID = none) (hrows : mkRows items = Except.ok rows) :
    (GoogleSheetsLogger env b64decode jsonLoads resp items).2 =
      [⟨none, "Sheet1!A:D", "RAW", rows⟩] ∧
    (∀ msg, (GoogleSheetsLogger env b64decode jsonLoads resp items).1 ≠
      Except.error (PyError.configError msg)) ∧
    (∀ k, (GoogleSheetsLogger env b64decode jsonLoads resp items).1 ≠
      Except.error (PyError.keyError k)) := by
  refine ⟨?_, ?_, ?_⟩
  · cases hup : resp.updates <;>
      simp [GoogleSheetsLogger, hsec, hb64, hjson, hid, hrows, hup]
  · intro msg
    cases hup : resp.updates <;>
      simp [GoogleSheetsLogger, hsec, hb64, hjson, hrows, hup]
  · intro k
    cases hup : resp.updates <;>
      simp [GoogleSheetsLogger, hsec, hb64, hjson, hrows, hup]

/-- C8 witness: the amended statement at a concrete environment. -/
theorem claim_C8_witness :
    (GoogleSheetsLogger envNoSheet b64ok jsonOk respZero []).2 =
      [⟨none, "Sheet1!A:D", "RAW", []⟩] :=
  (claim_C8 envNoSheet b64ok jsonOk respZero [] "c2VjcmV0" "c2VjcmV0" "c2VjcmV0" []
    rfl rfl rfl rfl rfl).1

/-- C9: the entry point invokes the crew kickoff exactly once (its
invocation trace is one element long, so there is no retry); when the
kickoff fails with message e, the run aborts with that failure re-raised
wrapped in run-level context identifying the crew run as failed, rather
than being swallowed. -/
theorem claim_C9 (currentYear : String) (kickoff : Inputs → Except String Unit)
    (e : String)
    (h : kickoff ⟨"Artificial Intelligence and Tech", currentYear⟩ =
      Except.error e) :
    run currentYear kickoff =
      (Except.error ("An error occurred while running the crew: " ++ e),
       [⟨"Artificial Intelligence and Tech", currentYear⟩]) := by
  simp [run, h]

/-- C9 witness: a concrete failing kickoff is wrapped and re-raised. -/
theorem claim_C9_witness :
    run "2026" (fun _ => Except.error "boom") =
      (Except.error ("An error occurred while running the crew: " ++ "boom"),
       [⟨"Artificial Intelligence and Tech", "2026"⟩]) :=
  claim_C9 "2026" (fun _ => Except.error "boom") "boom" rfl

/-- C10: with the webhook configured, if any input item lacks its url,
headline or summary key, SlackBotTool raises a KeyError while building the
block payload and sends no HTTP request at all — the complete payload is
built before the single request is issued. -/
theorem claim_C10 (env : Env) (w : String) (respStatus : Nat)
    (summaries : List ItemDict) (channel : String)
    (hw : env.SLACK_WEBHOOK_URL = some w) (hne : w ≠ "")
    (hbad : ∃ it ∈ summaries,
      it.url = none ∨ it.headline = none ∨ it.summary = none) :
    (∃ k, (SlackBotTool env respStatus summaries channel).1 =
      Except.error (PyError.keyError k)) ∧
    (SlackBotTool env respStatus summaries channel).2 = [] := by
  rcases mkBlocks_missing summaries hbad with ⟨k, hk⟩
  exact ⟨⟨k, by simp [SlackBotTool, hw, hne, hk]⟩,
    by simp [SlackBotTool, hw, hne, hk]⟩

/-- C10 witness: a concrete item without a url makes the tool raise with no
request sent. -/
theorem claim_C10_witness :
    (SlackBotTool envFull 200 [itemNoUrl] "#general").2 = [] ∧
    ∃ k, (SlackBotTool envFull 200 [itemNoUrl] "#general").1 =
      Except.error (PyError.keyError k) := by
  have h := claim_C10 envFull "https://hooks.example/T0/B0" 200 [itemNoUrl]
    "#general" rfl (by decide) ⟨itemNoUrl, by simp, Or.inl rfl⟩
  exact ⟨h.2, h.1⟩

end NewsAutomation
